import Mathlib

/-!
Shallow embedding of the `lpcap` Go library (package `lpcap`): a simplified
PCAP-like container format.  The embedding covers the file-header codec and
packet-header codec (`unmarshalFileHeader`, `unmarshalPacketHeader`), and the
session type `PCAP` with its operations `Create`, `Open`, `ReadPacket`,
`WritePacket`, `Next`, `Len`, `LastError` and `Close`.

Bytes are modelled as `Nat` values (each `< 256` where it matters, with
explicit `% 256` at the points where Go narrows to `byte`); the backing file
(`os.File`) is modelled as a list of bytes to which writes append and from
which `ReadAt` reads at an absolute offset, reporting `io.EOF` on a short
read, exactly as `os.File.ReadAt` does.
-/

namespace Lpcap

/-- Go `binary.LittleEndian.Uint16`: read two bytes little-endian. -/
def le16 (b0 b1 : Nat) : Nat := b0 + 256 * b1

/-- Go `binary.LittleEndian.Uint32`: read four bytes little-endian. -/
def le32 (b0 b1 b2 b3 : Nat) : Nat :=
  b0 + 256 * b1 + 65536 * b2 + 16777216 * b3

/-- Go `binary.LittleEndian.PutUint16 b v`: the two low-order bytes of `v`,
little-endian. -/
def putUint16 (v : Nat) : List Nat := [v % 256, v / 256 % 256]

/-- Go `binary.LittleEndian.PutUint32 b v`: the four low-order bytes of `v`,
little-endian. -/
def putUint32 (v : Nat) : List Nat :=
  [v % 256, v / 256 % 256, v / 65536 % 256, v / 16777216 % 256]

/-- Magic number constant `lpcapmx = 0x4f3e`. -/
def lpcapmx : Nat := 0x4f3e

/-- Go constant `minFileSize = 14`. -/
def minFileSize : Nat := 14

/-- Go constant `minPacketSize = 10`. -/
def minPacketSize : Nat := 10

/-- Go constant `MajorVer = 1`. -/
def MajorVer : Nat := 1

/-- Go constant `MinorVer = 0`. -/
def MinorVer : Nat := 0

/-- Go constant `MaxSnapLength = 1<<14 - 1`. -/
def MaxSnapLength : Nat := 2 ^ 14 - 1

/-- First ConstSpec of the link-type `const` block: `LinkTypeNull LinkType = 0`
(`iota = 0` there, unused by the expression). -/
def LinkTypeNull : Nat := 0

/-- Second ConstSpec: `LinkTypeEthernet2 LinkType = 2 << iota`; `iota` is the
index of the ConstSpec in the block, which is `1` here. -/
def LinkTypeEthernet2 : Nat := 2 <<< 1

/-- Third ConstSpec repeats the expression `2 << iota` with `iota = 2`. -/
def LinkTypeEthernet80211 : Nat := 2 <<< 2

/-- Fourth ConstSpec repeats the expression `2 << iota` with `iota = 3`. -/
def LinkTypeFDDI : Nat := 2 <<< 3

/-- Go constant `PacketTypeBroadcast = 2 << iota` with `iota = 0` (first
ConstSpec of its own `const` block). -/
def PacketTypeBroadcast : Nat := 2 <<< 0

/-- Go constant `PacketTypeUnicast`: repeats `2 << iota` with `iota = 1`. -/
def PacketTypeUnicast : Nat := 2 <<< 1

/-- Go constant `PacketTypeMulticast`: repeats `2 << iota` with `iota = 2`. -/
def PacketTypeMulticast : Nat := 2 <<< 2

/-- Go constant `ErrOk ErrorCode = 0` (first ConstSpec of the `ErrorCode`
block). -/
def ErrOk : Nat := 0

/-- Go constant `ErrRead ErrorCode = 1 << iota` with `iota = 1` (second
ConstSpec). -/
def ErrRead : Nat := 1 <<< 1

/-- Go constant `ErrWrite`: repeats `1 << iota` with `iota = 2`. -/
def ErrWrite : Nat := 1 <<< 2

/-- Go constant `ErrInvalidHeader`: repeats `1 << iota` with `iota = 3`. -/
def ErrInvalidHeader : Nat := 1 <<< 3

/-- Go constant `ErrSizeOverflow`: repeats `1 << iota` with `iota = 4`. -/
def ErrSizeOverflow : Nat := 1 <<< 4

/-- Go constant `ErrNoMorePacket`: repeats `1 << iota` with `iota = 5`. -/
def ErrNoMorePacket : Nat := 1 <<< 5

/-- Go struct `fileHeader`: magic, versions, snap length, link type.  All
fields are machine words (`uint16`/`uint32`) modelled as `Nat`. -/
structure fileHeader where
  mx : Nat
  majorVer : Nat
  minorVer : Nat
  snapLen : Nat
  link : Nat
deriving Repr, DecidableEq

/-- Result of a Go `unmarshal*` function, which returns
`(header, erroffset, error)`: on success the header together with the returned
offset (the source returns `0` there), on failure the error offset and the
message of the `errors.New` value. -/
inductive ParseResult (α : Type) where
  | ok (h : α) (erroffset : Nat)
  | err (erroffset : Nat) (msg : String)
deriving Repr, DecidableEq

/-- Whether a `ParseResult` is the success case. -/
def ParseResult.isOk {α : Type} : ParseResult α → Bool
  | .ok _ _ => true
  | .err _ _ => false

/-- Go function `unmarshalFileHeader(b []byte)`.  Validates,
in order: magic (offset 0), major version nonzero (offset 2), minor version
nonzero (offset 4), link type in `{LinkTypeEthernet2, LinkTypeEthernet80211}`
(offset 10).  The snap-length word at offset 6 is stored without validation.
The source validates the local `linkType` but never assigns it to `h.link`,
so the returned header keeps the struct's zero value `0` in that field. -/
def unmarshalFileHeader (b : List Nat) : ParseResult fileHeader :=
  let mx := le16 (b.getD 0 0) (b.getD 1 0)
  if mx ≠ lpcapmx then
    .err 0 "cannot parse PCAP file, invalid magix number"
  else
    let majorVer := le16 (b.getD 2 0) (b.getD 3 0)
    if majorVer = 0 then
      .err 2 "cannot parse PCAP file, invalid major version (is nil)"
    else
      let minorVer := le16 (b.getD 4 0) (b.getD 5 0)
      if minorVer = 0 then
        .err 4 "cannot parse PCAP file, invalid minor version (is nil)"
      else
        let snapLen := le32 (b.getD 6 0) (b.getD 7 0) (b.getD 8 0) (b.getD 9 0)
        let linkType := le32 (b.getD 10 0) (b.getD 11 0) (b.getD 12 0) (b.getD 13 0)
        if linkType ≠ LinkTypeEthernet2 ∧ linkType ≠ LinkTypeEthernet80211 then
          .err 10 "cannot parse PCAP file, link type is undefined"
        else
          .ok { mx := mx, majorVer := majorVer, minorVer := minorVer,
                snapLen := snapLen, link := 0 } 0

/-- Go struct `packetHeader`; field `p` (the payload slice) is left empty by
`unmarshalPacketHeader`, exactly as in the source. -/
structure packetHeader where
  ifindex : Nat
  ptype : Nat
  timestamp : Nat
  len : Nat
  p : List Nat
deriving Repr, DecidableEq

/-- Go function `unmarshalPacketHeader(b []byte, maxLen uint32)`.  Validates,
in order:
packet type in `{PacketTypeBroadcast, PacketTypeUnicast, PacketTypeMulticast}`
(offset 0), timestamp nonzero (offset 2), captured length at most `maxLen`
(offset 6). -/
def unmarshalPacketHeader (b : List Nat) (maxLen : Nat) : ParseResult packetHeader :=
  let i := b.getD 0 0
  let pt := b.getD 1 0
  if pt ≠ PacketTypeBroadcast ∧ pt ≠ PacketTypeUnicast ∧ pt ≠ PacketTypeMulticast then
    .err 0 "undefined packet type"
  else
    let t := le32 (b.getD 2 0) (b.getD 3 0) (b.getD 4 0) (b.getD 5 0)
    if t = 0 then
      .err 2 "invalid timestamp value"
    else
      let len := le32 (b.getD 6 0) (b.getD 7 0) (b.getD 8 0) (b.getD 9 0)
      if len > maxLen then
        .err 6 "snap length of packet is overflow"
      else
        .ok { ifindex := i, ptype := pt, timestamp := t, len := len, p := [] } 0

/-- Public transfer object `Packet` (current revision, without
`TimestampSec`).  `Index` is `uint8`, `PacketType` is `uint8`, `Timestamp`
and `Len` are `uint32`; theorems that need the machine ranges state them as
hypotheses. -/
structure Packet where
  Index : Nat
  PacketType : Nat
  Timestamp : Nat
  Len : Nat
  Data : List Nat
deriving Repr, DecidableEq

/-- Session state of the `PCAP` struct.  `h` is the `*fileHeader` pointer
(`none` models `nil`, which `Close` assigns); the mutexes and the file handle
carry no state of their own here — the backing `os.File` is the separate
`Store`, with `isClosed` telling whether the handle has been closed. -/
structure PCAP where
  h : Option fileHeader
  len : Nat
  offset : Nat
  isClosed : Bool
  lasterr : Nat
  fsize : Nat
deriving Repr, DecidableEq

/-- The backing byte store (the contents of the `os.File`).  `Create` starts
from an empty fresh file; every `Write` appends at the end (the handle's write
position is always at the end of file in the modelled scenarios, since
`Create` only ever appends). -/
structure Store where
  data : List Nat
deriving Repr, DecidableEq

/-- Go `os.File.ReadAt(buf, off)` with `len(buf) = n` on an open file: the
read fills the whole buffer iff the file holds at least `off + n` bytes;
otherwise the read is short and `ReadAt` reports `io.EOF` (`none` here). -/
def readAtFull (data : List Nat) (off n : Nat) : Option (List Nat) :=
  if off + n ≤ data.length then some ((data.drop off).take n) else none

/-- The 14 header bytes written by `Create`: magic, `MajorVer`, `MinorVer`,
`MaxSnapLength`, `LinkTypeEthernet2`, each little-endian. -/
def createHeaderBytes : List Nat :=
  putUint16 lpcapmx ++ putUint16 MajorVer ++ putUint16 MinorVer ++
    putUint32 MaxSnapLength ++ putUint32 LinkTypeEthernet2

/-- The default file header built by `Create`. -/
def createFileHeader : fileHeader :=
  { mx := lpcapmx, majorVer := MajorVer, minorVer := MinorVer,
    snapLen := MaxSnapLength, link := LinkTypeEthernet2 }

/-- Go function `Create` on a fresh path: builds the default header, writes its 14-byte
encoding (the write succeeds on the in-memory store), and returns the session
with `offset = fsize = minFileSize` and `lasterr = ErrOk`. -/
def Create : PCAP × Store :=
  ({ h := some createFileHeader,
     len := 0, offset := minFileSize, isClosed := false, lasterr := ErrOk,
     fsize := minFileSize },
   { data := createHeaderBytes })

/-- Outcome of `Open`. -/
inductive OpenResult where
  | ok (pcap : PCAP)
  | errTooSmall
  | errParse (erroffset : Nat) (msg : String)
deriving Repr, DecidableEq

/-- Go function `Open`: fails when the file is shorter than `minFileSize`; otherwise reads
the first 14 bytes (a full read, since the size check passed) and runs
`unmarshalFileHeader`, wrapping a codec failure into a `ParseError` carrying
the codec's error offset.  On success `offset = 14` (the bytes read),
`fsize` is the file size, and `lasterr` is the zero value `ErrOk`. -/
def Open (store : Store) : OpenResult :=
  if store.data.length < minFileSize then
    .errTooSmall
  else
    match unmarshalFileHeader (store.data.take minFileSize) with
    | .err off msg => .errParse off msg
    | .ok h _ =>
      .ok { h := some h, len := 0, offset := minFileSize, isClosed := false,
            lasterr := ErrOk, fsize := store.data.length }

/-- Outcome of `WritePacket`.  `errWrite` (a failing store append, `lasterr =
ErrWrite`) cannot occur on the in-memory store and so has no constructor;
`panicNilHeader` is the nil dereference of `pcap.h` after `Close`, and
`panicSliceCap` is the reslice of the pooled buffer past its capacity. -/
inductive WriteResult where
  | ok (n : Nat)
  | errOverflow
  | panicNilHeader
  | panicSliceCap
deriving Repr, DecidableEq

/-- Go method `WritePacket(p Packet)`.  In source order: the overflow
check reads `len(p.Data) + minPacketSize > int(pcap.h.snapLen)` — dereferencing
`pcap.h`, which is `nil` after `Close` (a runtime panic); then the pooled
scratch buffer (capacity `MaxSnapLength`) is resliced to
`minPacketSize + p.Len`, a panic when that exceeds the capacity (Go evaluates
the sum in `uint32`; for `p.Len < 2^32 - 10` — every value exercised below —
that agrees with the `Nat` sum).  The payload area holds the first
`min(p.Len, len(p.Data))` bytes copied from `p.Data`; the remaining bytes keep
the pooled buffer's previous contents, zero in a fresh buffer (modelled as
zeros; no theorem below reaches that case through a reused buffer).  On
success the frame is appended and `fsize` grows by the bytes written;
`lasterr`, `offset` and `len` are untouched. -/
def WritePacket (pcap : PCAP) (store : Store) (p : Packet) :
    WriteResult × PCAP × Store :=
  match pcap.h with
  | none => (.panicNilHeader, pcap, store)
  | some fh =>
    if p.Data.length + minPacketSize > fh.snapLen then
      (.errOverflow, { pcap with lasterr := ErrSizeOverflow }, store)
    else if minPacketSize + p.Len > MaxSnapLength then
      (.panicSliceCap, pcap, store)
    else
      let b := [p.Index % 256, p.PacketType % 256] ++ putUint32 p.Timestamp ++
        putUint32 p.Len ++
        (p.Data.take p.Len ++ List.replicate (p.Len - p.Data.length) 0)
      (.ok b.length,
       { pcap with fsize := pcap.fsize + b.length },
       { data := store.data ++ b })

/-- Outcome of `ReadPacket`.  `errEOF` is an `io.EOF` from a short `ReadAt`
(`lasterr = ErrNoMorePacket`); `errRead` is any other read failure — in this
model only reading through a closed handle (`lasterr = ErrRead`); `errParse`
is the positioned `ParseError` for an invalid packet header; the panics mirror
the nil-header dereference and the pooled-buffer reslice `b = b[:h.len]`
past capacity `MaxSnapLength`. -/
inductive ReadResult where
  | ok (n : Nat) (p : Packet)
  | errEOF
  | errRead
  | errParse (erroffset : Nat)
  | panicNilHeader
  | panicSliceCap
deriving Repr, DecidableEq

/-- Go method `ReadPacket(p *Packet)`.  Reads `minPacketSize` bytes
at `offset` (a closed handle errors, a short read is `io.EOF`), advances
`offset` by the bytes read, unmarshals against the file header's snap length
(on failure the returned `ParseError` offset is the already-advanced `offset`
plus the in-header offset, and `lasterr = ErrInvalidHeader`), reslices the
pooled buffer to the declared length, reads the payload at the advanced
offset, and on success populates the out-packet, increments `len`, advances
`offset`, and returns `minPacketSize` plus the payload bytes read. -/
def ReadPacket (pcap : PCAP) (store : Store) : ReadResult × PCAP :=
  if pcap.isClosed then
    (.errRead, { pcap with lasterr := ErrRead })
  else
    match readAtFull store.data pcap.offset minPacketSize with
    | none => (.errEOF, { pcap with lasterr := ErrNoMorePacket })
    | some b =>
      let pcap1 : PCAP := { pcap with offset := pcap.offset + minPacketSize }
      match pcap1.h with
      | none => (.panicNilHeader, pcap1)
      | some fh =>
        match unmarshalPacketHeader b fh.snapLen with
        | .err off _ =>
          (.errParse (pcap1.offset + off), { pcap1 with lasterr := ErrInvalidHeader })
        | .ok h _ =>
          if h.len > MaxSnapLength then
            (.panicSliceCap, pcap1)
          else
            match readAtFull store.data pcap1.offset h.len with
            | none => (.errEOF, { pcap1 with lasterr := ErrNoMorePacket })
            | some payload =>
              (.ok (minPacketSize + h.len)
                 { Index := h.ifindex, PacketType := h.ptype,
                   Timestamp := h.timestamp, Len := h.len, Data := payload },
               { pcap1 with len := pcap1.len + 1,
                            offset := pcap1.offset + h.len })

/-- Outcome of `Close`. -/
inductive CloseResult where
  | ok
  | errAlreadyClosed
deriving Repr, DecidableEq

/-- Go method `Close`: fails when already closed; otherwise zeroes every field, sets the
closed flag and closes the handle (which succeeds on the in-memory store). -/
def Close (pcap : PCAP) : CloseResult × PCAP :=
  if pcap.isClosed then
    (.errAlreadyClosed, pcap)
  else
    (.ok, { h := none, len := 0, offset := 0, isClosed := true,
            lasterr := ErrOk, fsize := 0 })

/-- Go method `Next`: true iff the read offset is below the tracked file size. -/
def Next (pcap : PCAP) : Bool :=
  decide (pcap.offset < pcap.fsize)

/-- Go method `Len`: the count of packets read so far. -/
def Len (pcap : PCAP) : Nat := pcap.len

/-- Go method `LastError`: the recorded classification of the most recent failure. -/
def LastError (pcap : PCAP) : Nat := pcap.lasterr

/-- Concrete test input: a well-formed small packet. -/
def packetA : Packet :=
  { Index := 4, PacketType := PacketTypeBroadcast, Timestamp := 5, Len := 3,
    Data := [9, 8, 7] }

/-- Concrete test input: a well-formed empty packet. -/
def emptyPacket : Packet :=
  { Index := 0, PacketType := PacketTypeBroadcast, Timestamp := 1, Len := 0,
    Data := [] }

/-- Concrete test input: a packet whose payload slice is one byte too long
for the default snap length (`16374 + 10 > 16383`). -/
def bigPacket : Packet :=
  { Index := 0, PacketType := PacketTypeBroadcast, Timestamp := 1, Len := 16374,
    Data := List.replicate 16374 0 }

/-- Concrete test input: a packet whose `Data` slice is empty (so the overflow
check passes) but whose declared `Len` field makes `minPacketSize + Len`
exceed the pooled buffer capacity `MaxSnapLength`. -/
def lenFieldPacket : Packet :=
  { Index := 0, PacketType := PacketTypeBroadcast, Timestamp := 1, Len := 16374,
    Data := [] }

/-- Reading back the four little-endian bytes of a `uint32` value recovers the
value. -/
theorem le32_put (v : Nat) (h : v < 4294967296) :
    le32 (v % 256) (v / 256 % 256) (v / 65536 % 256) (v / 16777216 % 256) = v := by
  simp only [le32]
  omega

/-- A full `ReadAt` of the middle section of a store succeeds and returns
exactly that section. -/
theorem readAtFull_append (pre mid post : List Nat) :
    readAtFull (pre ++ (mid ++ post)) pre.length mid.length = some mid := by
  unfold readAtFull
  rw [if_pos (by simp only [List.length_append]; omega)]
  rw [List.drop_left, List.take_left]

/-- The file-header decoder on a 14-byte input whose magic and versions are
valid reduces to the link-type test, and the returned header keeps `link = 0`
whatever the decoded link word was. -/
theorem unmarshalFileHeader_explicit
    (a0 a1 a2 a3 a4 a5 a6 a7 a8 a9 a10 a11 a12 a13 : Nat)
    (hmx : le16 a0 a1 = lpcapmx) (hmaj : le16 a2 a3 ≠ 0) (hmin : le16 a4 a5 ≠ 0) :
    unmarshalFileHeader [a0, a1, a2, a3, a4, a5, a6, a7, a8, a9, a10, a11, a12, a13] =
      if le32 a10 a11 a12 a13 ≠ LinkTypeEthernet2 ∧
          le32 a10 a11 a12 a13 ≠ LinkTypeEthernet80211 then
        .err 10 "cannot parse PCAP file, link type is undefined"
      else
        .ok { mx := le16 a0 a1, majorVer := le16 a2 a3, minorVer := le16 a4 a5,
              snapLen := le32 a6 a7 a8 a9, link := 0 } 0 := by
  simp only [unmarshalFileHeader, List.getD_cons_zero, List.getD_cons_succ]
  rw [if_neg (not_not_intro hmx), if_neg hmaj, if_neg hmin]

/-- The packet-header decoder written out on the ten bytes of its input. -/
theorem unmarshalPacketHeader_explicit
    (b0 b1 b2 b3 b4 b5 b6 b7 b8 b9 maxLen : Nat) :
    unmarshalPacketHeader [b0, b1, b2, b3, b4, b5, b6, b7, b8, b9] maxLen =
      if b1 ≠ PacketTypeBroadcast ∧ b1 ≠ PacketTypeUnicast ∧
          b1 ≠ PacketTypeMulticast then
        .err 0 "undefined packet type"
      else if le32 b2 b3 b4 b5 = 0 then
        .err 2 "invalid timestamp value"
      else if le32 b6 b7 b8 b9 > maxLen then
        .err 6 "snap length of packet is overflow"
      else
        .ok { ifindex := b0, ptype := b1, timestamp := le32 b2 b3 b4 b5,
              len := le32 b6 b7 b8 b9, p := [] } 0 := by
  simp only [unmarshalPacketHeader, List.getD_cons_zero, List.getD_cons_succ]

/-- A `WritePacket` whose overflow and capacity checks pass returns the frame
length, appends the frame, and grows `fsize` by the frame length, touching
nothing else. -/
theorem writePacket_success (pcap : PCAP) (store : Store) (p : Packet)
    (fh : fileHeader) (hh : pcap.h = some fh)
    (h1 : p.Data.length + minPacketSize ≤ fh.snapLen)
    (h2 : minPacketSize + p.Len ≤ MaxSnapLength) :
    WritePacket pcap store p =
      (.ok (minPacketSize + p.Len),
       { pcap with fsize := pcap.fsize + (minPacketSize + p.Len) },
       { data := store.data ++
           ([p.Index % 256, p.PacketType % 256] ++ putUint32 p.Timestamp ++
            putUint32 p.Len ++
            (p.Data.take p.Len ++ List.replicate (p.Len - p.Data.length) 0)) }) := by
  have hblen : ([p.Index % 256, p.PacketType % 256] ++ putUint32 p.Timestamp ++
      putUint32 p.Len ++
      (p.Data.take p.Len ++ List.replicate (p.Len - p.Data.length) 0)).length =
      minPacketSize + p.Len := by
    simp only [putUint32, List.length_append, List.length_cons, List.length_nil,
      List.length_take, List.length_replicate, minPacketSize]
    omega
  simp only [WritePacket, hh]
  rw [if_neg (Nat.not_lt.mpr h1), if_neg (Nat.not_lt.mpr h2), hblen]

/-- A `ReadPacket` positioned at a well-formed frame succeeds, returns the
frame length and the decoded packet, bumps the packet counter and advances
the offset past the frame. -/
theorem readPacket_success (pcap : PCAP) (store : Store) (fh : fileHeader)
    (i pt ts : Nat) (data tail : List Nat)
    (hcl : pcap.isClosed = false)
    (hh : pcap.h = some fh)
    (hst : store.data = tail ++
      ([i, pt, ts % 256, ts / 256 % 256, ts / 65536 % 256, ts / 16777216 % 256,
        data.length % 256, data.length / 256 % 256, data.length / 65536 % 256,
        data.length / 16777216 % 256] ++ data))
    (hoff : pcap.offset = tail.length)
    (hpt : pt = PacketTypeBroadcast ∨ pt = PacketTypeUnicast ∨
      pt = PacketTypeMulticast)
    (hts0 : 0 < ts) (hts : ts < 4294967296)
    (hdlf : data.length ≤ fh.snapLen)
    (hdlm : data.length ≤ MaxSnapLength) :
    ReadPacket pcap store =
      (.ok (minPacketSize + data.length)
         { Index := i, PacketType := pt, Timestamp := ts, Len := data.length,
           Data := data },
       { pcap with len := pcap.len + 1,
                   offset := pcap.offset + minPacketSize + data.length }) := by
  have hdl32 : data.length < 4294967296 := by
    simp only [MaxSnapLength] at hdlm
    omega
  have hr1 : readAtFull store.data pcap.offset minPacketSize =
      some [i, pt, ts % 256, ts / 256 % 256, ts / 65536 % 256, ts / 16777216 % 256,
        data.length % 256, data.length / 256 % 256, data.length / 65536 % 256,
        data.length / 16777216 % 256] := by
    rw [hst, hoff]
    simpa [minPacketSize] using readAtFull_append tail
      [i, pt, ts % 256, ts / 256 % 256, ts / 65536 % 256, ts / 16777216 % 256,
        data.length % 256, data.length / 256 % 256, data.length / 65536 % 256,
        data.length / 16777216 % 256] data
  have hr2 : readAtFull store.data (pcap.offset + minPacketSize) data.length =
      some data := by
    rw [hst, hoff]
    have hsh : tail ++
        ([i, pt, ts % 256, ts / 256 % 256, ts / 65536 % 256, ts / 16777216 % 256,
          data.length % 256, data.length / 256 % 256, data.length / 65536 % 256,
          data.length / 16777216 % 256] ++ data) =
        (tail ++
          [i, pt, ts % 256, ts / 256 % 256, ts / 65536 % 256, ts / 16777216 % 256,
            data.length % 256, data.length / 256 % 256, data.length / 65536 % 256,
            data.length / 16777216 % 256]) ++ (data ++ []) := by
      simp
    rw [hsh]
    simpa [minPacketSize] using readAtFull_append
      (tail ++
        [i, pt, ts % 256, ts / 256 % 256, ts / 65536 % 256, ts / 16777216 % 256,
          data.length % 256, data.length / 256 % 256, data.length / 65536 % 256,
          data.length / 16777216 % 256]) data []
  have hC : ¬(pt ≠ PacketTypeBroadcast ∧ pt ≠ PacketTypeUnicast ∧
      pt ≠ PacketTypeMulticast) := by
    rcases hpt with h | h | h <;> simp [h]
  have hdec : unmarshalPacketHeader
      [i, pt, ts % 256, ts / 256 % 256, ts / 65536 % 256, ts / 16777216 % 256,
        data.length % 256, data.length / 256 % 256, data.length / 65536 % 256,
        data.length / 16777216 % 256] fh.snapLen =
      .ok { ifindex := i, ptype := pt, timestamp := ts, len := data.length,
            p := [] } 0 := by
    rw [unmarshalPacketHeader_explicit, if_neg hC, le32_put ts hts,
      le32_put data.length hdl32, if_neg (by omega),
      if_neg (Nat.not_lt.mpr hdlf)]
  unfold ReadPacket
  rw [if_neg (by simp [hcl]), hr1]
  dsimp only
  rw [hh]
  dsimp only
  rw [hdec]
  dsimp only
  rw [if_neg (Nat.not_lt.mpr hdlm), hr2]

/-- C1 counterexample: the header encoded by `Create` (default link
`LinkTypeEthernet2`) carries the link-type word `4`, not the value `2` the
claim assigns to Ethernet2 — the `const` block's `iota` starts the doubling
at 4, not 2. -/
theorem c1_create_linktype_word_not_two :
    le32 (createHeaderBytes.getD 10 0) (createHeaderBytes.getD 11 0)
        (createHeaderBytes.getD 12 0) (createHeaderBytes.getD 13 0) =
      LinkTypeEthernet2 ∧
    LinkTypeEthernet2 = 4 ∧
    ¬ le32 (createHeaderBytes.getD 10 0) (createHeaderBytes.getD 11 0)
        (createHeaderBytes.getD 12 0) (createHeaderBytes.getD 13 0) = 2 := by
  decide

/-- C1 amended: the on-disk link-type constants are Null = 0, Ethernet2 = 4,
Ethernet80211 = 8, FDDI = 16; the header encoded by `Create` carries the word
`LinkTypeEthernet2 = 4`; and the file-header decoder (on an otherwise valid
header) accepts exactly the link words 4 and 8. -/
theorem c1_linktype_constants :
    LinkTypeNull = 0 ∧ LinkTypeEthernet2 = 4 ∧ LinkTypeEthernet80211 = 8 ∧
    LinkTypeFDDI = 16 ∧
    le32 (createHeaderBytes.getD 10 0) (createHeaderBytes.getD 11 0)
        (createHeaderBytes.getD 12 0) (createHeaderBytes.getD 13 0) =
      LinkTypeEthernet2 ∧
    ∀ w : Nat, w < 4294967296 →
      ((unmarshalFileHeader
          ([0x3e, 0x4f, 1, 0, 1, 0, 0xff, 0x3f, 0, 0] ++ putUint32 w)).isOk = true ↔
        (w = LinkTypeEthernet2 ∨ w = LinkTypeEthernet80211)) := by
  refine ⟨by decide, by decide, by decide, by decide, by decide, ?_⟩
  intro w hw
  have hb : ([0x3e, 0x4f, 1, 0, 1, 0, 0xff, 0x3f, 0, 0] ++ putUint32 w : List Nat) =
      [0x3e, 0x4f, 1, 0, 1, 0, 0xff, 0x3f, 0, 0,
       w % 256, w / 256 % 256, w / 65536 % 256, w / 16777216 % 256] := by
    simp [putUint32]
  rw [hb, unmarshalFileHeader_explicit _ _ _ _ _ _ _ _ _ _ _ _ _ _
        (by norm_num [le16, lpcapmx]) (by norm_num [le16]) (by norm_num [le16]),
      le32_put w hw]
  by_cases h4 : w = LinkTypeEthernet2
  · simp [h4, ParseResult.isOk]
  · by_cases h8 : w = LinkTypeEthernet80211
    · simp [h8, ParseResult.isOk, LinkTypeEthernet2, LinkTypeEthernet80211]
    · simp [h4, h8, ParseResult.isOk]

/-- C1 witness: the decoder acceptance part of `c1_linktype_constants`
instantiated at the link word 4. -/
theorem c1_linktype_constants_witness :
    (unmarshalFileHeader
        ([0x3e, 0x4f, 1, 0, 1, 0, 0xff, 0x3f, 0, 0] ++ putUint32 4)).isOk = true :=
  (c1_linktype_constants.2.2.2.2.2 4 (by decide)).mpr (Or.inl (by decide))

/-- C2: `Create` writes `MinorVer = 0` into the header, and the file-header
decoder rejects a zero minor version, so reopening a store created by
`Create` — whatever frames were appended after the header — always fails with
a positioned parse error at offset 4 instead of succeeding. -/
theorem c2_reopen_created_store_fails (tail : List Nat) :
    Open { data := createHeaderBytes ++ tail } =
      .errParse 4 "cannot parse PCAP file, invalid minor version (is nil)" := by
  unfold Open
  rw [if_neg (by simp only [List.length_append,
        show createHeaderBytes.length = 14 from rfl, minFileSize]; omega),
      List.take_left' (show createHeaderBytes.length = minFileSize from rfl),
      show unmarshalFileHeader createHeaderBytes =
        .err 4 "cannot parse PCAP file, invalid minor version (is nil)" from by decide]

/-- C7: on a fully valid 14-byte header (magic `0x4f3e`, versions 1.1, snap
length `0x3fff`, link word 4) the decoder succeeds with offset 0, but the
returned header's link field is the struct zero value `LinkTypeNull`, not the
decoded word `LinkTypeEthernet2` — the source validates `linkType` and never
assigns it. -/
theorem c7_decoder_leaves_link_unassigned :
    unmarshalFileHeader [0x3e, 0x4f, 1, 0, 1, 0, 0xff, 0x3f, 0, 0, 4, 0, 0, 0] =
      .ok { mx := lpcapmx, majorVer := 1, minorVer := 1, snapLen := MaxSnapLength,
            link := LinkTypeNull } 0 ∧
    le32 4 0 0 0 = LinkTypeEthernet2 ∧
    LinkTypeEthernet2 ≠ LinkTypeNull := by
  decide

/-- C9: the file-header decoder never rejects an input because of its
snap-length word — whenever magic, versions and link type are valid, decoding
succeeds, with no condition at all on bytes 6..9. -/
theorem c9_snaplen_never_validated
    (a0 a1 a2 a3 a4 a5 a6 a7 a8 a9 a10 a11 a12 a13 : Nat)
    (hmx : le16 a0 a1 = lpcapmx)
    (hmaj : le16 a2 a3 ≠ 0)
    (hmin : le16 a4 a5 ≠ 0)
    (hlink : le32 a10 a11 a12 a13 = LinkTypeEthernet2 ∨
      le32 a10 a11 a12 a13 = LinkTypeEthernet80211) :
    (unmarshalFileHeader
        [a0, a1, a2, a3, a4, a5, a6, a7, a8, a9, a10, a11, a12, a13]).isOk = true := by
  rw [unmarshalFileHeader_explicit _ _ _ _ _ _ _ _ _ _ _ _ _ _ hmx hmaj hmin]
  rcases hlink with h | h
  · rw [if_neg (by simp [h])]
    rfl
  · rw [if_neg (by simp [h])]
    rfl

/-- C9 witness: a header whose snap-length word is zero is accepted. -/
theorem c9_snaplen_never_validated_witness :
    (unmarshalFileHeader
        [0x3e, 0x4f, 1, 0, 1, 0, 0, 0, 0, 0, 4, 0, 0, 0]).isOk = true :=
  c9_snaplen_never_validated 0x3e 0x4f 1 0 1 0 0 0 0 0 4 0 0 0
    (by decide) (by decide) (by decide) (Or.inl (by decide))

/-- C10: a packet with an empty `Data` slice but `Len = 16374` passes the
overflow check (which looks only at `len(p.Data)`), and `WritePacket` then
reslices the pooled buffer to `minPacketSize + Len = 16384` bytes, past its
capacity `MaxSnapLength = 16383` — a panic, not a returned error. -/
theorem c10_writepacket_len_field_panics :
    lenFieldPacket.Data.length + minPacketSize ≤ MaxSnapLength ∧
    minPacketSize + lenFieldPacket.Len > MaxSnapLength ∧
    (WritePacket Create.1 Create.2 lenFieldPacket).1 = .panicSliceCap := by
  decide

/-- C3 counterexample: after one successful `Close`, `WritePacket` does not
return a "closed" error — it dereferences the header pointer that `Close` set
to nil, a panic. -/
theorem c3_write_after_close_panics :
    (Close Create.1).1 = .ok ∧
    (WritePacket (Close Create.1).2 Create.2 emptyPacket).1 = .panicNilHeader := by
  decide

/-- C3 amended: after a successful `Close` the closed flag is terminal and a
second `Close` fails with the "already closed" error, but `ReadPacket` fails
with a read error from the closed handle (not a "closed" error), and
`WritePacket` panics on the nil header instead of returning any error. -/
theorem c3_after_close (pcap : PCAP) (store : Store) (p : Packet)
    (h : pcap.isClosed = false) :
    (Close pcap).1 = .ok ∧
    (Close (Close pcap).2).1 = .errAlreadyClosed ∧
    (ReadPacket (Close pcap).2 store).1 = .errRead ∧
    (WritePacket (Close pcap).2 store p).1 = .panicNilHeader := by
  simp [Close, h, ReadPacket, WritePacket]

/-- C3 witness: `c3_after_close` at the freshly created session. -/
theorem c3_after_close_witness :
    (Close Create.1).1 = .ok ∧
    (Close (Close Create.1).2).1 = .errAlreadyClosed ∧
    (ReadPacket (Close Create.1).2 Create.2).1 = .errRead ∧
    (WritePacket (Close Create.1).2 Create.2 emptyPacket).1 = .panicNilHeader :=
  c3_after_close Create.1 Create.2 emptyPacket rfl

/-- C4 counterexample: on a fresh container a `ReadPacket` hits end of stream
and records `ErrNoMorePacket`; a subsequent `WritePacket` succeeds, yet
`LastError` still returns `ErrNoMorePacket`, not `ErrOk` — success paths never
reset the last-error field. -/
theorem c4_lasterror_stale_after_success :
    (ReadPacket Create.1 Create.2).1 = .errEOF ∧
    (WritePacket (ReadPacket Create.1 Create.2).2 Create.2 emptyPacket).1 =
      .ok minPacketSize ∧
    LastError (WritePacket (ReadPacket Create.1 Create.2).2 Create.2 emptyPacket).2.1 =
      ErrNoMorePacket ∧
    ErrNoMorePacket ≠ ErrOk := by
  decide

/-- C4 amended: the last-error field is written only by failing operations —
a successful `WritePacket` or `ReadPacket` leaves it unchanged (so after a
success it still holds the most recent failure's classification, not `ErrOk`),
while each failing operation records its own classification: an overflowing
write records `ErrSizeOverflow`, a short header or payload read records
`ErrNoMorePacket`, a read through a closed handle records `ErrRead`, and an
invalid packet header records `ErrInvalidHeader`. -/
theorem c4_lasterror_discipline (pcap : PCAP) (store : Store) (p : Packet)
    (fh : fileHeader) (hh : pcap.h = some fh) :
    (p.Data.length + minPacketSize ≤ fh.snapLen →
      minPacketSize + p.Len ≤ MaxSnapLength →
      (WritePacket pcap store p).2.1.lasterr = pcap.lasterr) ∧
    (p.Data.length + minPacketSize > fh.snapLen →
      (WritePacket pcap store p).2.1.lasterr = ErrSizeOverflow) ∧
    (∀ n q pc, ReadPacket pcap store = (.ok n q, pc) → pc.lasterr = pcap.lasterr) ∧
    (pcap.isClosed = false → store.data.length < pcap.offset + minPacketSize →
      (ReadPacket pcap store).2.lasterr = ErrNoMorePacket) ∧
    (pcap.isClosed = true → (ReadPacket pcap store).2.lasterr = ErrRead) ∧
    (∀ b off msg, pcap.isClosed = false →
      readAtFull store.data pcap.offset minPacketSize = some b →
      unmarshalPacketHeader b fh.snapLen = .err off msg →
      (ReadPacket pcap store).2.lasterr = ErrInvalidHeader) ∧
    (∀ b hd off, pcap.isClosed = false →
      readAtFull store.data pcap.offset minPacketSize = some b →
      unmarshalPacketHeader b fh.snapLen = .ok hd off →
      hd.len ≤ MaxSnapLength →
      readAtFull store.data (pcap.offset + minPacketSize) hd.len = none →
      (ReadPacket pcap store).2.lasterr = ErrNoMorePacket) := by
  refine ⟨?_, ?_, ?_, ?_, ?_, ?_, ?_⟩
  · intro h1 h2
    simp [WritePacket, hh, Nat.not_lt.mpr h1, Nat.not_lt.mpr h2]
  · intro h1
    simp [WritePacket, hh, h1]
  · intro n q pc heq
    by_cases hc : pcap.isClosed
    · simp [ReadPacket, hc] at heq
    · rcases hr : readAtFull store.data pcap.offset minPacketSize with _ | b
      · simp [ReadPacket, hc, hr] at heq
      · rcases hu : unmarshalPacketHeader b fh.snapLen with ⟨hd, off⟩ | ⟨off, msg⟩
        · by_cases hcap : hd.len > MaxSnapLength
          · simp [ReadPacket, hc, hr, hh, hu, hcap] at heq
          · rcases hp : readAtFull store.data (pcap.offset + minPacketSize) hd.len
              with _ | payload
            · simp [ReadPacket, hc, hr, hh, hu, hcap, hp] at heq
            · simp [ReadPacket, hc, hr, hh, hu, hcap, hp] at heq
              rw [← heq.2]
        · simp [ReadPacket, hc, hr, hh, hu] at heq
  · intro hc hshort
    have hnone : readAtFull store.data pcap.offset minPacketSize = none := by
      unfold readAtFull
      rw [if_neg (by omega)]
    simp [ReadPacket, hc, hnone]
  · intro hc
    simp [ReadPacket, hc]
  · intro b off msg hc hr hu
    simp [ReadPacket, hc, hr, hh, hu]
  · intro b hd off hc hr hu hcap hp
    simp [ReadPacket, hc, hr, hh, hu, Nat.not_lt.mpr hcap, hp]

/-- C4 witness: `c4_lasterror_discipline` at concrete sessions and stores,
exercising the write-success, header-read-EOF, closed-handle-read,
invalid-header and payload-read-EOF conjuncts. -/
theorem c4_lasterror_discipline_witness :
    (WritePacket Create.1 Create.2 emptyPacket).2.1.lasterr = (Create.1).lasterr ∧
    (ReadPacket Create.1 Create.2).2.lasterr = ErrNoMorePacket ∧
    (ReadPacket { Create.1 with isClosed := true } Create.2).2.lasterr = ErrRead ∧
    (ReadPacket Create.1
        { data := createHeaderBytes ++ [0, 0, 0, 0, 0, 0, 0, 0, 0, 0] }).2.lasterr =
      ErrInvalidHeader ∧
    (ReadPacket Create.1
        { data := createHeaderBytes ++ [0, 2, 1, 0, 0, 0, 5, 0, 0, 0] }).2.lasterr =
      ErrNoMorePacket :=
  ⟨(c4_lasterror_discipline Create.1 Create.2 emptyPacket createFileHeader rfl).1
      (by decide) (by decide),
   (c4_lasterror_discipline Create.1 Create.2 emptyPacket createFileHeader rfl).2.2.2.1
      rfl (by decide),
   (c4_lasterror_discipline { Create.1 with isClosed := true } Create.2 emptyPacket
      createFileHeader rfl).2.2.2.2.1 rfl,
   (c4_lasterror_discipline Create.1
      { data := createHeaderBytes ++ [0, 0, 0, 0, 0, 0, 0, 0, 0, 0] } emptyPacket
      createFileHeader rfl).2.2.2.2.2.1 [0, 0, 0, 0, 0, 0, 0, 0, 0, 0] 0
      "undefined packet type" rfl (by decide) (by decide),
   (c4_lasterror_discipline Create.1
      { data := createHeaderBytes ++ [0, 2, 1, 0, 0, 0, 5, 0, 0, 0] } emptyPacket
      createFileHeader rfl).2.2.2.2.2.2 [0, 2, 1, 0, 0, 0, 5, 0, 0, 0]
      { ifindex := 0, ptype := 2, timestamp := 1, len := 5, p := [] } 0
      rfl (by decide) (by decide) (by decide) (by decide)⟩

/-- C6: when the payload slice plus the 10 header octets exceed the snap
length, `WritePacket` fails with the size-overflow classification, appends
nothing to the store, and leaves the tracked size (indeed the whole session
state except `lasterr`) unchanged. -/
theorem c6_overflow_rejected (pcap : PCAP) (store : Store) (p : Packet)
    (fh : fileHeader) (hh : pcap.h = some fh)
    (hov : p.Data.length + minPacketSize > fh.snapLen) :
    WritePacket pcap store p =
      (.errOverflow, { pcap with lasterr := ErrSizeOverflow }, store) := by
  simp [WritePacket, hh, hov]

/-- C6 witness: `c6_overflow_rejected` at the fresh session and a 16374-byte
payload. -/
theorem c6_overflow_rejected_witness :
    WritePacket Create.1 Create.2 bigPacket =
      (.errOverflow, { Create.1 with lasterr := ErrSizeOverflow }, Create.2) :=
  c6_overflow_rejected Create.1 Create.2 bigPacket createFileHeader rfl
    (by simp only [bigPacket, createFileHeader, List.length_replicate]; decide)

/-- C8: the packet-header decoder on any 10-byte input validates in order —
unknown packet type fails at offset 0, zero timestamp at offset 2, a declared
length above the bound at offset 6 — and otherwise succeeds with offset 0 and
the decoded ifindex, type, timestamp and length. -/
theorem c8_packet_header_decoder
    (b0 b1 b2 b3 b4 b5 b6 b7 b8 b9 maxLen : Nat) :
    (¬(b1 = PacketTypeBroadcast ∨ b1 = PacketTypeUnicast ∨ b1 = PacketTypeMulticast) →
      unmarshalPacketHeader [b0, b1, b2, b3, b4, b5, b6, b7, b8, b9] maxLen =
        .err 0 "undefined packet type") ∧
    ((b1 = PacketTypeBroadcast ∨ b1 = PacketTypeUnicast ∨ b1 = PacketTypeMulticast) →
      le32 b2 b3 b4 b5 = 0 →
      unmarshalPacketHeader [b0, b1, b2, b3, b4, b5, b6, b7, b8, b9] maxLen =
        .err 2 "invalid timestamp value") ∧
    ((b1 = PacketTypeBroadcast ∨ b1 = PacketTypeUnicast ∨ b1 = PacketTypeMulticast) →
      le32 b2 b3 b4 b5 ≠ 0 → le32 b6 b7 b8 b9 > maxLen →
      unmarshalPacketHeader [b0, b1, b2, b3, b4, b5, b6, b7, b8, b9] maxLen =
        .err 6 "snap length of packet is overflow") ∧
    ((b1 = PacketTypeBroadcast ∨ b1 = PacketTypeUnicast ∨ b1 = PacketTypeMulticast) →
      le32 b2 b3 b4 b5 ≠ 0 → le32 b6 b7 b8 b9 ≤ maxLen →
      unmarshalPacketHeader [b0, b1, b2, b3, b4, b5, b6, b7, b8, b9] maxLen =
        .ok { ifindex := b0, ptype := b1, timestamp := le32 b2 b3 b4 b5,
              len := le32 b6 b7 b8 b9, p := [] } 0) := by
  refine ⟨?_, ?_, ?_, ?_⟩
  · intro h
    push_neg at h
    rw [unmarshalPacketHeader_explicit, if_pos h]
  · intro hpt ht
    have hC : ¬(b1 ≠ PacketTypeBroadcast ∧ b1 ≠ PacketTypeUnicast ∧
        b1 ≠ PacketTypeMulticast) := by
      rcases hpt with h | h | h <;> simp [h]
    rw [unmarshalPacketHeader_explicit, if_neg hC, if_pos ht]
  · intro hpt ht hlen
    have hC : ¬(b1 ≠ PacketTypeBroadcast ∧ b1 ≠ PacketTypeUnicast ∧
        b1 ≠ PacketTypeMulticast) := by
      rcases hpt with h | h | h <;> simp [h]
    rw [unmarshalPacketHeader_explicit, if_neg hC, if_neg ht, if_pos hlen]
  · intro hpt ht hlen
    have hC : ¬(b1 ≠ PacketTypeBroadcast ∧ b1 ≠ PacketTypeUnicast ∧
        b1 ≠ PacketTypeMulticast) := by
      rcases hpt with h | h | h <;> simp [h]
    rw [unmarshalPacketHeader_explicit, if_neg hC, if_neg ht,
        if_neg (Nat.not_lt.mpr hlen)]

/-- C8 witness: `c8_packet_header_decoder` at a concrete valid 10-byte header
(ifindex 7, unicast, timestamp 1, length 3, bound 16383), exercising the
success conjunct. -/
theorem c8_packet_header_decoder_witness :
    unmarshalPacketHeader [7, 4, 1, 0, 0, 0, 3, 0, 0, 0] 16383 =
      .ok { ifindex := 7, ptype := 4, timestamp := le32 1 0 0 0,
            len := le32 3 0 0 0, p := [] } 0 :=
  (c8_packet_header_decoder 7 4 1 0 0 0 3 0 0 0 16383).2.2.2
    (Or.inr (Or.inl (by decide))) (by decide) (by decide)

/-- C5: writing a valid packet (known class, payload at most
`MaxSnapLength - minPacketSize` octets with a matching `Len` field, nonzero
32-bit timestamp, 8-bit index) to a fresh container and reading it back
returns the identical packet — index, class, timestamp, length and payload
bytes — and both calls report `minPacketSize` plus the payload length. -/
theorem c5_write_read_roundtrip (p : Packet)
    (hpt : p.PacketType = PacketTypeBroadcast ∨ p.PacketType = PacketTypeUnicast ∨
      p.PacketType = PacketTypeMulticast)
    (hdl : p.Data.length ≤ MaxSnapLength - minPacketSize)
    (hts0 : 0 < p.Timestamp) (hts : p.Timestamp < 4294967296)
    (hidx : p.Index < 256)
    (hwf : p.Len = p.Data.length) :
    (WritePacket Create.1 Create.2 p).1 = .ok (minPacketSize + p.Data.length) ∧
    (ReadPacket (WritePacket Create.1 Create.2 p).2.1
        (WritePacket Create.1 Create.2 p).2.2).1 =
      .ok (minPacketSize + p.Data.length) p := by
  obtain ⟨i, pt, ts, ln, data⟩ := p
  dsimp only at hpt hdl hts0 hts hidx hwf ⊢
  subst hwf
  have hdl' : data.length ≤ 16373 := by
    simp only [MaxSnapLength, minPacketSize] at hdl
    omega
  have hi : i % 256 = i := Nat.mod_eq_of_lt hidx
  have hptm : pt % 256 = pt := by
    rcases hpt with h | h | h <;> simp [h, PacketTypeBroadcast, PacketTypeUnicast,
      PacketTypeMulticast]
  have hw := writePacket_success Create.1 Create.2 ⟨i, pt, ts, data.length, data⟩
    createFileHeader rfl
    (by dsimp only; simp only [createFileHeader, MaxSnapLength, minPacketSize]; omega)
    (by dsimp only; simp only [MaxSnapLength, minPacketSize]; omega)
  rw [hw]
  dsimp only
  refine ⟨rfl, ?_⟩
  have hst : Create.2.data ++
      ([i % 256, pt % 256] ++ putUint32 ts ++ putUint32 data.length ++
        (data.take data.length ++ List.replicate (data.length - data.length) 0)) =
      createHeaderBytes ++
        ([i, pt, ts % 256, ts / 256 % 256, ts / 65536 % 256, ts / 16777216 % 256,
          data.length % 256, data.length / 256 % 256, data.length / 65536 % 256,
          data.length / 16777216 % 256] ++ data) := by
    simp [Create, putUint32, List.take_length, hi, hptm]
  have hr := readPacket_success
    { h := Create.1.h, len := Create.1.len, offset := Create.1.offset,
      isClosed := Create.1.isClosed, lasterr := Create.1.lasterr,
      fsize := Create.1.fsize + (minPacketSize + data.length) }
    { data := Create.2.data ++
        ([i % 256, pt % 256] ++ putUint32 ts ++ putUint32 data.length ++
          (data.take data.length ++ List.replicate (data.length - data.length) 0)) }
    createFileHeader i pt ts data createHeaderBytes rfl rfl hst rfl hpt hts0 hts
    (by simp only [createFileHeader, MaxSnapLength]; omega)
    (by simp only [MaxSnapLength]; omega)
  rw [hr]

/-- C5 witness: the round-trip at the concrete packet `packetA`. -/
theorem c5_write_read_roundtrip_witness :
    (WritePacket Create.1 Create.2 packetA).1 =
      .ok (minPacketSize + packetA.Data.length) ∧
    (ReadPacket (WritePacket Create.1 Create.2 packetA).2.1
        (WritePacket Create.1 Create.2 packetA).2.2).1 =
      .ok (minPacketSize + packetA.Data.length) packetA :=
  c5_write_read_roundtrip packetA (Or.inl (by decide)) (by decide) (by decide)
    (by decide) (by decide) (by decide)

end Lpcap
